import Mathlib

/-
  Verification development for the AI/automation control layer of the
  atari800-ai fork (src/ai_interface.c, src/ai_interface.h).

  The layer is a single-threaded control-protocol server: a length-prefixed
  request/response codec over a local socket, a pause/run frame-stepping
  scheduler, an input-override table applied once per emulated frame, and a
  bounded debug-capture buffer.

  Shallow embedding conventions:
  - C strings are modeled as List Char; the zero terminator is the list end.
  - The module-static state of ai_interface.c, together with the few
    collaborator arrays it writes (PIA_PORT_input, GTIA_TRIG,
    POKEY_POT_input), is a record AIState.
  - Commands that only touch collaborator state outside this layer
    (CPU registers, memory, screen, disk, state files) leave AIState
    unchanged and emit a response tagged Resp.external; their bodies are
    produced by the external emulator and are out of scope, as the layer
    spec declares. Every branch of process_command is otherwise translated
    from the C dispatcher, in source order.
  - AI_SendResponse drops the response when no client is attached
    (ai_client_fd < 0); send models this guard.
  - C int values are modeled as Int (no arithmetic here approaches 2^31);
    byte values as Nat. The one bitwise complement in the source,
    on a 32-bit int mask, is modeled by u32not, complement within 32 bits.
-/

/-! ## Characters and C string helpers -/

/-- Unpack a Lean string literal into the List Char representation used for
C strings throughout this development. -/
def str (s : String) : List Char := s.data

/-- The C isspace set used by atoi: space, tab, newline, vertical tab,
form feed, carriage return. -/
def isSpaceC (c : Char) : Bool :=
  c = ' ' || c = '\t' || c = '\n' || c = '\x0b' || c = '\x0c' || c = '\r'

/-- Drop leading isspace characters, as atoi does. -/
def dropSpaces : List Char → List Char
  | c :: rest => if isSpaceC c then dropSpaces rest else c :: rest
  | [] => []

/-- Accumulate the value of a leading run of decimal digits; stops at the
first non-digit, yielding the accumulator (0 when there are no digits). -/
def digitsVal : List Char → Nat → Nat
  | c :: rest, acc =>
      if '0' ≤ c ∧ c ≤ '9' then digitsVal rest (acc * 10 + (c.toNat - 48)) else acc
  | [], acc => acc

/-- C atoi: skip whitespace, optional sign, then decimal digits; 0 when no
digits follow. Overflow of the 32-bit int is not modeled; every use in the
claims stays far below it. -/
def atoi (p : List Char) : Int :=
  match dropSpaces p with
  | '-' :: rest => -(digitsVal rest 0 : Int)
  | '+' :: rest => (digitsVal rest 0 : Int)
  | q => (digitsVal q 0 : Int)

/-- C strstr followed by skipping the needle: the suffix of the haystack
that starts right after the first occurrence of the pattern, or none when
the pattern does not occur. -/
def findAfter : List Char → List Char → Option (List Char)
  | [], pat => if List.isPrefixOf pat ([] : List Char) then some [] else none
  | c :: rest, pat =>
      if List.isPrefixOf pat (c :: rest) then some ((c :: rest).drop pat.length)
      else findAfter rest pat

/-- Skip the space and tab characters that the json_get_ helpers skip after
the colon of a matched key. -/
def skipWS : List Char → List Char
  | c :: rest => if c = ' ' ∨ c = '\t' then skipWS rest else c :: rest
  | [] => []

/-! ## The minimal JSON field extractors (ai_interface.c lines 62-101) -/

/-- The search needle snprintf builds for a key: a double quote, the key,
a double quote and a colon, truncated to the 63 characters that fit the
64-byte search buffer. -/
def searchPat (key : List Char) : List Char :=
  ('"' :: (key ++ ['"', ':'])).take 63

/-- The string-copy loop of json_get_string: copy until the closing quote,
end of input, or the buffer limit; a backslash followed by any character
skips the backslash and copies that character verbatim; a trailing
backslash is copied as itself. -/
def jsonStrLoop : List Char → Nat → List Char
  | _, 0 => []
  | [], _ => []
  | c :: rest, fuel + 1 =>
      if c = '"' then []
      else if c = '\\' then
        match rest with
        | [] => ['\\']
        | d :: rest2 => d :: jsonStrLoop rest2 fuel
      else c :: jsonStrLoop rest fuel

/-- json_get_string: locate the key, skip blanks, require an opening quote,
then copy at most bufsize - 1 characters; none when the key is absent or
the value does not start with a quote. -/
def json_get_string (json key : List Char) (bufsize : Nat) : Option (List Char) :=
  match findAfter json (searchPat key) with
  | none => none
  | some p =>
      match skipWS p with
      | '"' :: rest => some (jsonStrLoop rest (bufsize - 1))
      | _ => none

/-- json_get_int: locate the key, skip blanks; the default when the key is
absent or the value opens with a quote, otherwise atoi of the value text. -/
def json_get_int (json key : List Char) (d : Int) : Int :=
  match findAfter json (searchPat key) with
  | none => d
  | some p =>
      if (skipWS p).take 1 = ['"'] then d else atoi (skipWS p)

/-- json_get_bool: locate the key, skip blanks; 1 when the value text
starts with the literal true, 0 when it starts with false, otherwise the
default. The C function returns int and callers test it for non-zero. -/
def json_get_bool (json key : List Char) (d : Int) : Int :=
  match findAfter json (searchPat key) with
  | none => d
  | some p =>
      if List.isPrefixOf (str "true") (skipWS p) then 1
      else if List.isPrefixOf (str "false") (skipWS p) then 0
      else d

/-! ## State of the layer (module statics of ai_interface.c plus the
collaborator input arrays it overwrites) -/

/-- The mutable state the control layer owns or overwrites.
client models ai_client_fd: none for -1, some fd for an attached session.
PIA_PORT_input, GTIA_TRIG and POKEY_POT_input are the collaborator arrays
written by AI_ApplyInput and the paddle command. -/
structure AIState where
  AI_enabled : Bool
  ai_paused : Bool
  ai_frames_to_run : Int
  ai_steps_to_run : Int
  AI_joy_override : Fin 4 → Int
  AI_trig_override : Fin 4 → Int
  AI_debug_port : Int
  ai_debug_buffer : List Nat
  client : Option Nat
  PIA_PORT_input : Fin 2 → Nat
  GTIA_TRIG : Fin 4 → Nat
  POKEY_POT_input : Fin 8 → Int

/-- A response the layer emits. json carries a payload fully determined by
the modeled state; external tags a payload whose body is produced by an
out-of-scope collaborator (CPU, memory, screen, disk, state files), keyed
by the command name. -/
inductive Resp where
  | json : List Char → Resp
  | external : List Char → Resp
deriving DecidableEq

/-- AI_SendResponse: the response is written only while a client socket is
attached; with no client it is dropped. -/
def send (s : AIState) (r : Resp) : List Resp :=
  if s.client.isSome then [r] else []

/-- Layer state right after AI_Initialise with the -ai flag: overrides
clear, counters zero, no client; paused unless -ai-run was given.
The collaborator arrays start at their hardware idle values (all
direction lines released, triggers not pressed); they are overwritten by
the emulator every frame and by the hw step of AIStep. -/
def initState (startPaused : Bool) : AIState :=
  { AI_enabled := true
    ai_paused := startPaused
    ai_frames_to_run := 0
    ai_steps_to_run := 0
    AI_joy_override := fun _ => -1
    AI_trig_override := fun _ => -1
    AI_debug_port := 0
    ai_debug_buffer := []
    client := none
    PIA_PORT_input := fun _ => 255
    GTIA_TRIG := fun _ => 1
    POKEY_POT_input := fun _ => 228 }

/-! ## Debug capture buffer (lines 52-55, 171-175, 498-517) -/

/-- Capacity of the debug capture buffer. -/
def AI_DEBUG_BUFFER_SIZE : Nat := 4096

/-- Size of the shared response buffer ai_response. -/
def AI_MAX_RESPONSE : Nat := 1048576

/-- AI_DebugWrite: append the byte while the buffer is not full, else drop
it silently. -/
def AI_DebugWrite (b : Nat) (s : AIState) : AIState :=
  if s.ai_debug_buffer.length < AI_DEBUG_BUFFER_SIZE then
    { s with ai_debug_buffer := s.ai_debug_buffer ++ [b] }
  else s

/-- Decimal rendering of a nonnegative int, as snprintf %d produces; the
fuel (12 digits) covers every value a 32-bit int can hold. -/
def natDecAux : Nat → Nat → List Char
  | 0, _ => []
  | fuel + 1, n =>
      if n < 10 then [Char.ofNat (48 + n)]
      else natDecAux fuel (n / 10) ++ [Char.ofNat (48 + n % 10)]

/-- Decimal rendering of a byte value for the data array of debug_read. -/
def natDec (n : Nat) : List Char := natDecAux 12 n

/-- Literal head of the debug_read response. -/
def debugHead : List Char := str "\x7b\"status\":\"ok\",\"data\":["

/-- Literal separator between the data array and the ascii rendering. -/
def debugMid : List Char := str "],\"ascii\":\""

/-- Literal tail of the debug_read response. -/
def debugTail : List Char := str "\"\x7d"

/-- The data-array loop of the debug_read handler: before each element the
write position is checked against the response buffer size minus 100; each
element appends a comma (except the first, index 0) and its decimal text.
Returns the final position and the appended text. -/
def dataLoop : List Nat → Nat → Nat → Nat × List Char
  | [], _, pos => (pos, [])
  | b :: bs, i, pos =>
      if pos < AI_MAX_RESPONSE - 100 then
        ((dataLoop bs (i + 1) (pos + ((if i = 0 then [] else [',']) ++ natDec b).length)).1,
          ((if i = 0 then [] else [',']) ++ natDec b) ++
            (dataLoop bs (i + 1) (pos + ((if i = 0 then [] else [',']) ++ natDec b).length)).2)
      else (pos, [])

/-- The printable rendering of one captured byte: itself when printable
ASCII other than quote or backslash, else a dot. -/
def asciiRender (b : Nat) : Char :=
  if 32 ≤ b ∧ b < 127 ∧ b ≠ 34 ∧ b ≠ 92 then Char.ofNat b else '.'

/-- The ascii loop of the debug_read handler: one character per byte while
the position stays below the buffer size minus 10. -/
def asciiLoop : List Nat → Nat → Nat × List Char
  | [], pos => (pos, [])
  | b :: bs, pos =>
      if pos < AI_MAX_RESPONSE - 10 then
        ((asciiLoop bs (pos + 1)).1, asciiRender b :: (asciiLoop bs (pos + 1)).2)
      else (pos, [])

/-- The full debug_read response text as the handler builds it, bound
checks included. The closing two characters always fit: the positions
reached stay far below the 1 MB buffer, as proved below. -/
def debug_read_response (buf : List Nat) : List Char :=
  debugHead ++ (dataLoop buf 0 debugHead.length).2 ++ debugMid ++
    (asciiLoop buf ((dataLoop buf 0 debugHead.length).1 + debugMid.length)).2 ++ debugTail

/-- debug_read: build the response from the buffer, reset the buffer to
empty, send. -/
def cmd_debug_read (s : AIState) : AIState × List Resp :=
  ({ s with ai_debug_buffer := [] },
    send s (Resp.json (debug_read_response s.ai_debug_buffer)))

/-! ## Command handlers (process_command, lines 214-543) -/

/-- Literal ok response. -/
def okResp : List Char := str "\x7b\"status\":\"ok\"\x7d"

/-- Literal ping response. -/
def pingResp : List Char := str "\x7b\"status\":\"ok\",\"msg\":\"pong\"\x7d"

/-- The response the frames countdown sends when it reaches zero. The
count is the literal 1 in the source regardless of how many frames ran. -/
def framesDoneResp : List Char := str "\x7b\"status\":\"ok\",\"frames_run\":1\x7d"

/-- The error response of the final dispatcher branch, naming the
unrecognized command. -/
def unknownResp (cmdTy : List Char) : List Char :=
  str "\x7b\"status\":\"error\",\"msg\":\"Unknown command: " ++ cmdTy ++ str "\"\x7d"

/-- The stick value the joystick handler derives from the direction text;
values are the INPUT_STICK_ constants of the emulator (documented in the
fork README): centre 15, forward 14, back 13, left 11, right 7 and the
four diagonals. Any unrecognized or absent direction means centre. -/
def stickOfDir (dir : List Char) : Int :=
  if dir = str "up" then 14
  else if dir = str "down" then 13
  else if dir = str "left" then 11
  else if dir = str "right" then 7
  else if dir = str "ul" then 10
  else if dir = str "ur" then 6
  else if dir = str "ll" then 9
  else if dir = str "lr" then 5
  else 15

/-- The joystick command body: for a port in 0-3 set the directional
override (-1, no override, when the direction is centre) and the trigger
override (0, pressed, when fire is non-zero, else -1); out of range ports
change nothing. The response is the ok literal either way. -/
def cmd_joystick (port : Int) (dir : List Char) (fire : Int) (s : AIState) :
    AIState × List Resp :=
  if h : 0 ≤ port ∧ port < 4 then
    ({ s with
        AI_joy_override := Function.update s.AI_joy_override ⟨port.toNat, by omega⟩
          (if stickOfDir dir = 15 then -1 else stickOfDir dir)
        AI_trig_override := Function.update s.AI_trig_override ⟨port.toNat, by omega⟩
          (if fire ≠ 0 then 0 else -1) },
      send s (Resp.json okResp))
  else (s, send s (Resp.json okResp))

/-- The paddle command body: for a port in 0-7 write the value into
POKEY_POT_input; out of range ports change nothing. Responds ok either
way. -/
def cmd_paddle (port value : Int) (s : AIState) : AIState × List Resp :=
  if h : 0 ≤ port ∧ port < 8 then
    ({ s with POKEY_POT_input := Function.update s.POKEY_POT_input ⟨port.toNat, by omega⟩ value },
      send s (Resp.json okResp))
  else (s, send s (Resp.json okResp))

/-- The run command body: load the frames counter and clear the paused
flag; no response is sent yet. The pending instructions counter is left
untouched. -/
def cmd_run (frames : Int) (s : AIState) : AIState × List Resp :=
  ({ s with ai_frames_to_run := frames, ai_paused := false }, [])

/-- The step command body: load the instructions counter and clear the
paused flag; no response is sent yet. The pending frames counter is left
untouched. -/
def cmd_step (instructions : Int) (s : AIState) : AIState × List Resp :=
  ({ s with ai_steps_to_run := instructions, ai_paused := false }, [])

/-- The command name extracted from a request: the cmd field through a
32-byte buffer, empty when absent or not a string. -/
def cmdTypeOf (json : List Char) : List Char :=
  (json_get_string json (str "cmd") 32).getD []

/-- process_command: the dispatcher chain in source order. Branches whose
whole effect lives in collaborator state (program load, cold start,
keyboard input variables, screen, memory, CPU and chip registers, state
files) leave AIState unchanged; their responses are the literal the source
sends when it is closed-form, else Resp.external. -/
def process_command (json : List Char) (s : AIState) : AIState × List Resp :=
  if cmdTypeOf json = str "ping" then (s, send s (Resp.json pingResp))
  else if cmdTypeOf json = str "load" then (s, send s (Resp.external (str "load")))
  else if cmdTypeOf json = str "run" then cmd_run (json_get_int json (str "frames") 1) s
  else if cmdTypeOf json = str "step" then cmd_step (json_get_int json (str "instructions") 1) s
  else if cmdTypeOf json = str "pause" then
    ({ s with ai_paused := true }, send s (Resp.json okResp))
  else if cmdTypeOf json = str "reset" then (s, send s (Resp.json okResp))
  else if cmdTypeOf json = str "key" then (s, send s (Resp.json okResp))
  else if cmdTypeOf json = str "key_release" then (s, send s (Resp.json okResp))
  else if cmdTypeOf json = str "joystick" then
    cmd_joystick (json_get_int json (str "port") 0)
      ((json_get_string json (str "direction") 16).getD [])
      (json_get_bool json (str "fire") 0) s
  else if cmdTypeOf json = str "paddle" then
    cmd_paddle (json_get_int json (str "port") 0) (json_get_int json (str "value") 128) s
  else if cmdTypeOf json = str "consol" then (s, send s (Resp.json okResp))
  else if cmdTypeOf json = str "screenshot" then (s, send s (Resp.external (str "screenshot")))
  else if cmdTypeOf json = str "screen_ascii" then (s, send s (Resp.external (str "screen_ascii")))
  else if cmdTypeOf json = str "screen_raw" then (s, send s (Resp.external (str "screen_raw")))
  else if cmdTypeOf json = str "peek" then (s, send s (Resp.external (str "peek")))
  else if cmdTypeOf json = str "poke" then (s, send s (Resp.json okResp))
  else if cmdTypeOf json = str "dump" then (s, send s (Resp.external (str "dump")))
  else if cmdTypeOf json = str "cpu" then (s, send s (Resp.external (str "cpu")))
  else if cmdTypeOf json = str "cpu_set" then (s, send s (Resp.json okResp))
  else if cmdTypeOf json = str "antic" then (s, send s (Resp.external (str "antic")))
  else if cmdTypeOf json = str "gtia" then (s, send s (Resp.external (str "gtia")))
  else if cmdTypeOf json = str "pokey" then (s, send s (Resp.external (str "pokey")))
  else if cmdTypeOf json = str "pia" then (s, send s (Resp.external (str "pia")))
  else if cmdTypeOf json = str "debug_enable" then
    ({ s with AI_debug_port := json_get_int json (str "addr") 0xD7FF },
      send s (Resp.json okResp))
  else if cmdTypeOf json = str "debug_read" then cmd_debug_read s
  else if cmdTypeOf json = str "save_state" then (s, send s (Resp.external (str "save_state")))
  else if cmdTypeOf json = str "load_state" then (s, send s (Resp.external (str "load_state")))
  else (s, send s (Resp.json (unknownResp (cmdTypeOf json))))

/-- Whether a command name hits one of the dispatcher branches, in the
same order the source tests them. -/
def isKnownCmd (c : List Char) : Bool :=
  c = str "ping" || c = str "load" || c = str "run" || c = str "step" ||
  c = str "pause" || c = str "reset" || c = str "key" || c = str "key_release" ||
  c = str "joystick" || c = str "paddle" || c = str "consol" ||
  c = str "screenshot" || c = str "screen_ascii" || c = str "screen_raw" ||
  c = str "peek" || c = str "poke" || c = str "dump" || c = str "cpu" ||
  c = str "cpu_set" || c = str "antic" || c = str "gtia" || c = str "pokey" ||
  c = str "pia" || c = str "debug_enable" || c = str "debug_read" ||
  c = str "save_state" || c = str "load_state"

/-! ## Connection manager (check_connections, lines 585-608; the
disconnect path of read_command, lines 554-559) -/

/-- The accept path of check_connections when a connection is pending and
accept succeeds: any existing client socket is closed first, the new one
is adopted, and the paused flag is forced on. Returns the new state and
the list of sockets closed in the process. -/
def check_connections_accept (fd : Nat) (s : AIState) : AIState × List Nat :=
  ({ s with client := some fd, ai_paused := true }, s.client.toList)

/-- The disconnect path of read_command: the client socket is closed and
forgotten. Nothing else in the state is touched. -/
def dropClient (s : AIState) : AIState := { s with client := none }

/-! ## Frame-tick countdown (AI_Frame, lines 673-682) -/

/-- The frames countdown executed at the top of every AI_Frame call: while
the frames counter is positive it is decremented, and on reaching zero the
layer pauses and sends the literal frames_run response. -/
def aiFrameCountdown (s : AIState) : AIState × List Resp :=
  if 0 < s.ai_frames_to_run then
    if s.ai_frames_to_run - 1 = 0 then
      ({ s with ai_frames_to_run := s.ai_frames_to_run - 1, ai_paused := true },
        send s (Resp.json framesDoneResp))
    else ({ s with ai_frames_to_run := s.ai_frames_to_run - 1 }, [])
  else (s, [])

/-- Iterate the per-frame countdown over a number of frame ticks,
collecting every response sent along the way. While the layer is not
paused and no connection arrives, an AI_Frame call is exactly one such
tick: check_connections without a pending connection is the identity and
the drain loop body is skipped. -/
def runTicks : Nat → AIState → AIState × List Resp
  | 0, s => (s, [])
  | k + 1, s =>
      ((runTicks k (aiFrameCountdown s).1).1,
        (aiFrameCountdown s).2 ++ (runTicks k (aiFrameCountdown s).1).2)

/-! ## Request framing (read_command, lines 546-582) -/

/-- The header loop of read_command: read single characters until a
newline, the end of the available bytes, or 31 characters without a
newline (the loop bound hpos < sizeof header - 1). Returns the header
digits and the remaining bytes, or none when the bytes run out first. -/
def splitHeader : Nat → List Char → Option (List Char × List Char)
  | 0, rest => some ([], rest)
  | _ + 1, [] => none
  | fuel + 1, c :: rest =>
      if c = '\n' then some ([], rest)
      else
        match splitHeader fuel rest with
        | none => none
        | some (h, r) => some (c :: h, r)

/-- AI_BUFFER_SIZE, the command buffer AI_Frame hands to read_command. -/
def AI_BUFFER_SIZE : Nat := 65536

/-- Result of one read_command call: the decoded payload when a complete
request was read, the bytes left unconsumed, and whether the client socket
was closed (end of stream while reading the header). -/
structure ReadResult where
  payload : Option (List Char)
  rest : List Char
  disconnected : Bool
deriving DecidableEq

/-- read_command over the available bytes of the stream; eof tells whether
the end of those bytes is an orderly close (read returns 0, the client is
torn down) or merely no data yet (EAGAIN, the call just returns nothing).
A declared length that is non-positive or not below the buffer size makes
the call return nothing, with no response and no disconnect: the request
is silently ignored. A body shorter than the declared length also returns
nothing (the body read loop gives up without closing). -/
def read_command (stream : List Char) (eof : Bool) : ReadResult :=
  match splitHeader 31 stream with
  | none => ⟨none, [], eof⟩
  | some (hdr, rest) =>
      if atoi hdr ≤ 0 ∨ (AI_BUFFER_SIZE : Int) ≤ atoi hdr then ⟨none, rest, false⟩
      else if rest.length < (atoi hdr).toNat then ⟨none, [], false⟩
      else ⟨some (rest.take (atoi hdr).toNat), rest.drop (atoi hdr).toNat, false⟩

/-- One iteration of the drain loop of AI_Frame (lines 685-693): a
complete request is dispatched to process_command; otherwise the state is
left alone apart from the teardown read_command itself performed. -/
def drainIter (s : AIState) (stream : List Char) (eof : Bool) :
    AIState × List Resp × List Char :=
  match (read_command stream eof).payload with
  | some p => ((process_command p s).1, (process_command p s).2, (read_command stream eof).rest)
  | none =>
      (if (read_command stream eof).disconnected then dropClient s else s, [],
        (read_command stream eof).rest)

/-! ## Input override application (AI_ApplyInput, lines 702-720) -/

/-- Bitwise complement within a 32-bit word, the meaning of the C
expression applied to the nibble mask of an int. -/
def u32not (m : Nat) : Nat := 0xFFFFFFFF - m

/-- The PIA byte holding a port: ports 0 and 1 live in PIA_PORT_input[0],
ports 2 and 3 in PIA_PORT_input[1]. -/
def piaIdx (i : Fin 4) : Fin 2 := if (i : Nat) < 2 then 0 else 1

/-- The shift of a port inside its PIA byte: even ports the low nibble,
odd ports the high nibble. -/
def piaShift (i : Fin 4) : Nat := ((i : Nat) &&& 1) * 4

/-- The loop body of AI_ApplyInput for one port: when a directional
override is active, clear the four direction bits of the port inside its
PIA byte and or the override value in; when a trigger override is active,
overwrite GTIA_TRIG for the port with it. -/
def applyPort (i : Fin 4) (s : AIState) : AIState :=
  if 0 ≤ s.AI_joy_override i then
    if 0 ≤ s.AI_trig_override i then
      { s with
          PIA_PORT_input := Function.update s.PIA_PORT_input (piaIdx i)
            ((s.PIA_PORT_input (piaIdx i) &&& u32not (0x0F <<< piaShift i)) |||
              ((s.AI_joy_override i).toNat <<< piaShift i))
          GTIA_TRIG := Function.update s.GTIA_TRIG i (s.AI_trig_override i).toNat }
    else
      { s with
          PIA_PORT_input := Function.update s.PIA_PORT_input (piaIdx i)
            ((s.PIA_PORT_input (piaIdx i) &&& u32not (0x0F <<< piaShift i)) |||
              ((s.AI_joy_override i).toNat <<< piaShift i)) }
  else
    if 0 ≤ s.AI_trig_override i then
      { s with GTIA_TRIG := Function.update s.GTIA_TRIG i (s.AI_trig_override i).toNat }
    else s

/-- AI_ApplyInput: inert unless the layer is enabled; otherwise the loop
body runs for ports 0, 1, 2, 3 in order. It is called by the host once per
frame, right after the emulator polls its own hardware input. -/
def AI_ApplyInput (s : AIState) : AIState :=
  if s.AI_enabled then applyPort 3 (applyPort 2 (applyPort 1 (applyPort 0 s))) else s

/-! ## The events that mutate the layer state -/

/-- The atomic events of the layer, as a step relation. dispatch carries
the guard of the drain loop: requests are only processed while the layer
is paused with a client attached. tick is the frames countdown at the top
of an AI_Frame call. connect and disconnect are the accept and teardown
paths. debugWrite is the memory-subsystem hook for a guest write to the
debug address. applyInput is the per-frame override application. hw is
the emulator overwriting its own input arrays during a frame (hardware
polling), which touches no state owned by the layer. -/
inductive AIStep : AIState → AIState → Prop
  | dispatch (json : List Char) (s : AIState)
      (hp : s.ai_paused = true) (hc : s.client.isSome = true) :
      AIStep s (process_command json s).1
  | tick (s : AIState) : AIStep s (aiFrameCountdown s).1
  | connect (fd : Nat) (s : AIState) : AIStep s (check_connections_accept fd s).1
  | disconnect (s : AIState) : AIStep s (dropClient s)
  | debugWrite (b : Nat) (s : AIState) : AIStep s (AI_DebugWrite b s)
  | applyInput (s : AIState) : AIStep s (AI_ApplyInput s)
  | hw (pia : Fin 2 → Nat) (trig : Fin 4 → Nat) (pot : Fin 8 → Int) (s : AIState) :
      AIStep s { s with PIA_PORT_input := pia, GTIA_TRIG := trig, POKEY_POT_input := pot }

/-- The states the layer can reach from startup (paused, or running when
the -ai-run flag was given). -/
def ReachableAI (startPaused : Bool) (s : AIState) : Prop :=
  Relation.ReflTransGen AIStep (initState startPaused) s

/-! ## Shared scenario states and small helper lemmas -/

/-- A freshly attached session on socket 0, reached from startup by the
accept path; the layer is paused waiting for commands. -/
def attached0 : AIState := (check_connections_accept 0 (initState true)).1

/-- Once the frames counter is exhausted (or was never loaded), frame
ticks are inert: no state change and no response, however many elapse. -/
theorem runTicks_of_frames_nonpos (s : AIState) (h : s.ai_frames_to_run ≤ 0) :
    ∀ k, runTicks k s = (s, []) := by
  have hc : aiFrameCountdown s = (s, []) := by
    unfold aiFrameCountdown
    rw [if_neg (by omega)]
  intro k
  induction k with
  | zero => rfl
  | succ n ih => simp [runTicks, hc, ih]

/-- The frames countdown never touches the instructions counter. -/
theorem aiFrameCountdown_steps (t : AIState) :
    (aiFrameCountdown t).1.ai_steps_to_run = t.ai_steps_to_run := by
  unfold aiFrameCountdown
  split_ifs <;> rfl

/-! ## C1 -/

/-- The run request of the C1 scenario: two frames. -/
def runJson2 : List Char := str "\x7b\"cmd\":\"run\",\"frames\":2\x7d"

/-- State right after the run request is dispatched on the attached,
paused session. -/
def c1s1 : AIState := (process_command runJson2 attached0).1

/-- Claim C1, code_bug evidence. A run command with frames 2 while a
session is attached sends nothing at dispatch, runs unpaused for the first
tick, and at the second tick pauses and sends exactly one response — the
timing of the claim holds — but the response is the hard-coded literal
whose frames_run field reads 1, not the 2 frames actually advanced that
the claim (and the API documentation in ai_interface.h) promises. Ticks
after completion are inert, so the count cannot be made up later. -/
theorem C1_frames_run_misreported :
    (process_command runJson2 attached0).2 = [] ∧
    c1s1.ai_paused = false ∧
    c1s1.ai_frames_to_run = 2 ∧
    (runTicks 1 c1s1).2 = [] ∧
    (runTicks 1 c1s1).1.ai_paused = false ∧
    (runTicks 2 c1s1).2 = [Resp.json framesDoneResp] ∧
    (runTicks 2 c1s1).1.ai_paused = true ∧
    (∀ m, runTicks m (runTicks 2 c1s1).1 = ((runTicks 2 c1s1).1, [])) ∧
    json_get_int framesDoneResp (str "frames_run") 0 = 1 ∧
    (1 : Int) ≠ 2 := by
  refine ⟨by decide, by decide, by decide, by decide, by decide, by decide, by decide,
    runTicks_of_frames_nonpos _ (by decide), by decide, by decide⟩

/-! ## C2 -/

/-- The step request of the C2 scenario: one instruction. -/
def stepJson1 : List Char := str "\x7b\"cmd\":\"step\",\"instructions\":1\x7d"

/-- State right after the step request is dispatched on the attached,
paused session. -/
def c2s1 : AIState := (process_command stepJson1 attached0).1

/-- Claim C2, code_bug evidence. A step command loads the instructions
counter and unpauses without responding, but no code path in the layer
ever decrements ai_steps_to_run (the variable is static to ai_interface.c
and the frame loop only counts frames): arbitrarily many frame ticks later
the layer is still unpaused, the counter still reads 1, and no response
has been sent, against the claim that it returns to Paused after exactly n
instruction-steps with exactly one response. -/
theorem C2_step_counter_never_decremented :
    (process_command stepJson1 attached0).2 = [] ∧
    c2s1.ai_paused = false ∧
    c2s1.ai_steps_to_run = 1 ∧
    (∀ k, runTicks k c2s1 = (c2s1, [])) ∧
    (∀ t : AIState, (aiFrameCountdown t).1.ai_steps_to_run = t.ai_steps_to_run) := by
  refine ⟨by decide, by decide, by decide,
    runTicks_of_frames_nonpos _ (by decide), aiFrameCountdown_steps⟩

/-! ## C6 -/

/-- Claim C6, confirmed. Accepting a connection while a session is
attached closes exactly the old session socket, adopts the new one (the
client slot holds at most one socket, so at most one live session ever
exists), and forces the paused flag on, whatever the prior scheduler state
was: the state s is arbitrary, so the conclusion is independent of
ai_paused, ai_frames_to_run and ai_steps_to_run. -/
theorem C6_reconnect_supersedes (s : AIState) (fd old : Nat) (h : s.client = some old) :
    (check_connections_accept fd s).1.client = some fd ∧
    (check_connections_accept fd s).1.ai_paused = true ∧
    (check_connections_accept fd s).2 = [old] := by
  refine ⟨rfl, rfl, ?_⟩
  simp [check_connections_accept, h]

/-- Witness for C6 on a concrete mid-run state: session 7 attached, three
frames still pending, not paused. -/
theorem C6_reconnect_supersedes_witness :
    ({ initState false with client := some 7, ai_frames_to_run := 3 } : AIState).client = some 7 ∧
    ((check_connections_accept 9 { initState false with client := some 7, ai_frames_to_run := 3 }).1.client = some 9 ∧
      (check_connections_accept 9 { initState false with client := some 7, ai_frames_to_run := 3 }).1.ai_paused = true ∧
      (check_connections_accept 9 { initState false with client := some 7, ai_frames_to_run := 3 }).2 = [7]) :=
  ⟨rfl, C6_reconnect_supersedes _ 9 7 rfl⟩

/-! ## C7 -/

/-- The step request of the C7 scenario: five instructions. -/
def stepJson5 : List Char := str "\x7b\"cmd\":\"step\",\"instructions\":5\x7d"

/-- The run request of the C7 scenario: three frames. -/
def runJson3 : List Char := str "\x7b\"cmd\":\"run\",\"frames\":3\x7d"

/-- C7 trace, stage 1: step 5 dispatched on the attached paused session. -/
def c7b : AIState := (process_command stepJson5 attached0).1

/-- C7 trace, stage 2: a reconnect arrives while the instruction run is
pending, forcing pause with the counter still loaded. -/
def c7c : AIState := (check_connections_accept 1 c7b).1

/-- C7 trace, stage 3: the new session dispatches run 3. -/
def c7d : AIState := (process_command runJson3 c7c).1

/-- Counterexample to claim C7. A reachable state (connect, step 5,
reconnect, run 3 — every dispatch performed while paused with a client
attached, as the drain loop requires) carries both counters non-zero at
once; in particular the run command was dispatched with five instructions
pending and did not zero them. -/
theorem C7_both_counters_nonzero :
    ReachableAI true c7d ∧
    c7c.ai_steps_to_run = 5 ∧
    c7d.ai_frames_to_run = 3 ∧
    c7d.ai_steps_to_run = 5 ∧
    c7d.ai_frames_to_run ≠ 0 ∧
    c7d.ai_steps_to_run ≠ 0 := by
  refine ⟨?_, by decide, by decide, by decide, by decide, by decide⟩
  have h1 : AIStep (initState true) attached0 := AIStep.connect 0 _
  have h2 : AIStep attached0 c7b := AIStep.dispatch stepJson5 _ rfl rfl
  have h3 : AIStep c7b c7c := AIStep.connect 1 _
  have h4 : AIStep c7c c7d := AIStep.dispatch runJson3 _ rfl rfl
  exact Relation.ReflTransGen.tail
    (Relation.ReflTransGen.tail
      (Relation.ReflTransGen.tail (Relation.ReflTransGen.single h1) h2) h3) h4

/-- Claim C7 as amended: the run handler loads the frames counter and the
step handler loads the instructions counter, each leaving the other
counter untouched, so the two countdowns are not mutually exclusive. -/
theorem C7_run_step_leave_other_counter (n : Int) (s : AIState) :
    (cmd_run n s).1.ai_steps_to_run = s.ai_steps_to_run ∧
    (cmd_run n s).1.ai_frames_to_run = n ∧
    (cmd_step n s).1.ai_frames_to_run = s.ai_frames_to_run ∧
    (cmd_step n s).1.ai_steps_to_run = n :=
  ⟨rfl, rfl, rfl, rfl⟩

/-! ## C8 -/

/-- Claim C8 as amended: an absent field yields the caller default for
both the integer and the boolean extractor; a string-shaped value where an
integer was wanted yields the default; a value that starts with neither
true nor false where a boolean was wanted yields the default. (The case
the original claim overstates — a present, unquoted, non-numeric value
for the integer extractor — falls through to atoi instead, see the
counterexample.) -/
theorem C8_field_extraction_defaults (json key : List Char) (d : Int) :
    (findAfter json (searchPat key) = none →
      json_get_int json key d = d ∧ json_get_bool json key d = d) ∧
    (∀ p, findAfter json (searchPat key) = some p → (skipWS p).take 1 = ['"'] →
      json_get_int json key d = d) ∧
    (∀ p, findAfter json (searchPat key) = some p →
      List.isPrefixOf (str "true") (skipWS p) = false →
      List.isPrefixOf (str "false") (skipWS p) = false →
      json_get_bool json key d = d) := by
  refine ⟨fun h => ⟨?_, ?_⟩, fun p h h2 => ?_, fun p h h2 h3 => ?_⟩
  · simp [json_get_int, h]
  · simp [json_get_bool, h]
  · simp [json_get_int, h, h2]
  · simp [json_get_bool, h, h2, h3]

/-- Witness for C8 on concrete payloads: a missing key, a string where an
integer was wanted, and a number where a boolean was wanted, all yielding
the default 7. -/
theorem C8_field_extraction_defaults_witness :
    (json_get_int (str "\x7b\"a\":1\x7d") (str "zz") 7 = 7 ∧
      json_get_bool (str "\x7b\"a\":1\x7d") (str "zz") 7 = 7) ∧
    json_get_int (str "\x7b\"a\":\"x\"\x7d") (str "a") 7 = 7 ∧
    json_get_bool (str "\x7b\"a\":3\x7d") (str "a") 7 = 7 :=
  ⟨(C8_field_extraction_defaults (str "\x7b\"a\":1\x7d") (str "zz") 7).1 (by decide),
    (C8_field_extraction_defaults (str "\x7b\"a\":\"x\"\x7d") (str "a") 7).2.1
      (str "\"x\"\x7d") (by decide) (by decide),
    (C8_field_extraction_defaults (str "\x7b\"a\":3\x7d") (str "a") 7).2.2
      (str "3\x7d") (by decide) (by decide) (by decide)⟩

/-- Counterexample to claim C8 as stated: a boolean literal is an
unexpected shape where an integer was wanted, yet the integer extractor
does not return the caller default 7 — the value is handed to atoi, which
yields 0. -/
theorem C8_wrong_shape_not_default :
    json_get_int (str "\x7b\"frames\":true\x7d") (str "frames") 7 = 0 ∧
    (0 : Int) ≠ 7 := ⟨by decide, by decide⟩

/-! ## C9 -/

/-- Claim C9 as amended: a joystick command whose port is outside 0-3, and
a paddle command whose port is outside 0-7, are complete no-ops on the
state — no override entry, paddle input or anything else changes — but the
response is the plain ok literal, not an error status. -/
theorem C9_out_of_range_port_ok_noop (s : AIState) (port value fire : Int) (dir : List Char) :
    (¬(0 ≤ port ∧ port < 4) → cmd_joystick port dir fire s = (s, send s (Resp.json okResp))) ∧
    (¬(0 ≤ port ∧ port < 8) → cmd_paddle port value s = (s, send s (Resp.json okResp))) := by
  constructor
  · intro h
    unfold cmd_joystick
    rw [dif_neg h]
  · intro h
    unfold cmd_paddle
    rw [dif_neg h]

/-- Witness for C9 at port 9 on the attached session. -/
theorem C9_out_of_range_port_ok_noop_witness :
    cmd_joystick 9 (str "up") 1 attached0 = (attached0, send attached0 (Resp.json okResp)) ∧
    cmd_paddle 9 5 attached0 = (attached0, send attached0 (Resp.json okResp)) :=
  ⟨(C9_out_of_range_port_ok_noop attached0 9 5 1 (str "up")).1 (by decide),
    (C9_out_of_range_port_ok_noop attached0 9 5 1 (str "up")).2 (by decide)⟩

/-- The joystick request of the C9 counterexample: port 9 is outside 0-3. -/
def joyBadJson : List Char :=
  str "\x7b\"cmd\":\"joystick\",\"port\":9,\"direction\":\"up\",\"fire\":true\x7d"

/-- The paddle request of the C9 counterexample: port 8 is outside 0-7. -/
def padBadJson : List Char := str "\x7b\"cmd\":\"paddle\",\"port\":8,\"value\":5\x7d"

/-- Counterexample to claim C9 as stated: dispatching a joystick command
for port 9 or a paddle command for port 8 on the attached session leaves
the state untouched, but the single response carries status ok — not the
error status the claim requires. -/
theorem C9_no_error_status_on_bad_port :
    (process_command joyBadJson attached0).2 = [Resp.json okResp] ∧
    (process_command joyBadJson attached0).1 = attached0 ∧
    (process_command padBadJson attached0).2 = [Resp.json okResp] ∧
    (process_command padBadJson attached0).1 = attached0 ∧
    json_get_string okResp (str "status") 32 = some (str "ok") ∧
    str "ok" ≠ str "error" :=
  ⟨by decide, rfl, by decide, rfl, by decide, by decide⟩

/-! ## C4 -/

/-- The header loop consumes exactly the digits before the first newline
when that newline arrives within the loop bound. -/
theorem splitHeader_finds_newline (hdr : List Char) :
    ∀ (fuel : Nat) (rest : List Char), '\n' ∉ hdr → hdr.length < fuel →
      splitHeader fuel (hdr ++ '\n' :: rest) = some (hdr, rest) := by
  induction hdr with
  | nil =>
      intro fuel rest _ hlt
      obtain ⟨f, rfl⟩ : ∃ f, fuel = f + 1 := ⟨fuel - 1, by omega⟩
      simp [splitHeader]
  | cons c tl ih =>
      intro fuel rest hnl hlt
      obtain ⟨f, rfl⟩ : ∃ f, fuel = f + 1 := ⟨fuel - 1, by omega⟩
      have hc : ¬(c = '\n') := fun h => hnl (by simp [h])
      have h2 : '\n' ∉ tl := fun h => hnl (List.mem_cons_of_mem _ h)
      have h3 : tl.length < f := by
        have := hlt
        simp only [List.length_cons] at this
        omega
      simp only [List.cons_append, splitHeader, if_neg hc, List.append_eq, ih f rest h2 h3]

/-- A request whose declared length is non-positive or not below the
65536-byte command buffer is dropped by read_command: no payload, no
disconnect, the stream position past the header. -/
theorem read_command_bad_length (hdr rest : List Char)
    (hnl : '\n' ∉ hdr) (hlen : hdr.length ≤ 30)
    (hbad : atoi hdr ≤ 0 ∨ (AI_BUFFER_SIZE : Int) ≤ atoi hdr) :
    read_command (hdr ++ '\n' :: rest) false = ⟨none, rest, false⟩ := by
  unfold read_command
  rw [splitHeader_finds_newline hdr 31 rest hnl (by omega)]
  exact if_pos hbad

/-- The drain loop emits nothing at all for such a request: no error
response, and the session is left attached exactly as it was. -/
theorem drainIter_bad_length (t : AIState) (hdr rest : List Char)
    (hnl : '\n' ∉ hdr) (hlen : hdr.length ≤ 30)
    (hbad : atoi hdr ≤ 0 ∨ (AI_BUFFER_SIZE : Int) ≤ atoi hdr) :
    drainIter t (hdr ++ '\n' :: rest) false = (t, [], rest) := by
  unfold drainIter
  rw [read_command_bad_length hdr rest hnl hlen hbad]
  rfl

/-- The joystick handler never touches the client socket. -/
theorem cmd_joystick_client (port : Int) (dir : List Char) (fire : Int) (s : AIState) :
    (cmd_joystick port dir fire s).1.client = s.client := by
  unfold cmd_joystick
  split_ifs <;> rfl

/-- The paddle handler never touches the client socket. -/
theorem cmd_paddle_client (port value : Int) (s : AIState) :
    (cmd_paddle port value s).1.client = s.client := by
  unfold cmd_paddle
  split_ifs <;> rfl

set_option maxHeartbeats 2000000 in
/-- Branch-by-branch elimination for the dispatcher: any property that
holds of the outcome of every branch (each hypothesis guarded by the
branch condition, in source order) holds of process_command. -/
theorem process_command_elim (j : List Char) (s : AIState) (P : AIState × List Resp → Prop)
    (hB1 : cmdTypeOf j = str "ping" → P (s, send s (Resp.json pingResp)))
    (hB2 : cmdTypeOf j = str "load" → P (s, send s (Resp.external (str "load"))))
    (hB3 : cmdTypeOf j = str "run" → P (cmd_run (json_get_int j (str "frames") 1) s))
    (hB4 : cmdTypeOf j = str "step" → P (cmd_step (json_get_int j (str "instructions") 1) s))
    (hB5 : cmdTypeOf j = str "pause" → P ({ s with ai_paused := true }, send s (Resp.json okResp)))
    (hB6 : cmdTypeOf j = str "reset" → P (s, send s (Resp.json okResp)))
    (hB7 : cmdTypeOf j = str "key" → P (s, send s (Resp.json okResp)))
    (hB8 : cmdTypeOf j = str "key_release" → P (s, send s (Resp.json okResp)))
    (hB9 : cmdTypeOf j = str "joystick" →
      P (cmd_joystick (json_get_int j (str "port") 0)
        ((json_get_string j (str "direction") 16).getD []) (json_get_bool j (str "fire") 0) s))
    (hB10 : cmdTypeOf j = str "paddle" →
      P (cmd_paddle (json_get_int j (str "port") 0) (json_get_int j (str "value") 128) s))
    (hB11 : cmdTypeOf j = str "consol" → P (s, send s (Resp.json okResp)))
    (hB12 : cmdTypeOf j = str "screenshot" → P (s, send s (Resp.external (str "screenshot"))))
    (hB13 : cmdTypeOf j = str "screen_ascii" → P (s, send s (Resp.external (str "screen_ascii"))))
    (hB14 : cmdTypeOf j = str "screen_raw" → P (s, send s (Resp.external (str "screen_raw"))))
    (hB15 : cmdTypeOf j = str "peek" → P (s, send s (Resp.external (str "peek"))))
    (hB16 : cmdTypeOf j = str "poke" → P (s, send s (Resp.json okResp)))
    (hB17 : cmdTypeOf j = str "dump" → P (s, send s (Resp.external (str "dump"))))
    (hB18 : cmdTypeOf j = str "cpu" → P (s, send s (Resp.external (str "cpu"))))
    (hB19 : cmdTypeOf j = str "cpu_set" → P (s, send s (Resp.json okResp)))
    (hB20 : cmdTypeOf j = str "antic" → P (s, send s (Resp.external (str "antic"))))
    (hB21 : cmdTypeOf j = str "gtia" → P (s, send s (Resp.external (str "gtia"))))
    (hB22 : cmdTypeOf j = str "pokey" → P (s, send s (Resp.external (str "pokey"))))
    (hB23 : cmdTypeOf j = str "pia" → P (s, send s (Resp.external (str "pia"))))
    (hB24 : cmdTypeOf j = str "debug_enable" →
      P ({ s with AI_debug_port := json_get_int j (str "addr") 0xD7FF }, send s (Resp.json okResp)))
    (hB25 : cmdTypeOf j = str "debug_read" → P (cmd_debug_read s))
    (hB26 : cmdTypeOf j = str "save_state" → P (s, send s (Resp.external (str "save_state"))))
    (hB27 : cmdTypeOf j = str "load_state" → P (s, send s (Resp.external (str "load_state"))))
    (hUnk : isKnownCmd (cmdTypeOf j) = false →
      P (s, send s (Resp.json (unknownResp (cmdTypeOf j))))) :
    P (process_command j s) := by
  unfold process_command
  by_cases e1 : cmdTypeOf j = str "ping"
  · rw [if_pos e1]; exact hB1 e1
  rw [if_neg e1]
  by_cases e2 : cmdTypeOf j = str "load"
  · rw [if_pos e2]; exact hB2 e2
  rw [if_neg e2]
  by_cases e3 : cmdTypeOf j = str "run"
  · rw [if_pos e3]; exact hB3 e3
  rw [if_neg e3]
  by_cases e4 : cmdTypeOf j = str "step"
  · rw [if_pos e4]; exact hB4 e4
  rw [if_neg e4]
  by_cases e5 : cmdTypeOf j = str "pause"
  · rw [if_pos e5]; exact hB5 e5
  rw [if_neg e5]
  by_cases e6 : cmdTypeOf j = str "reset"
  · rw [if_pos e6]; exact hB6 e6
  rw [if_neg e6]
  by_cases e7 : cmdTypeOf j = str "key"
  · rw [if_pos e7]; exact hB7 e7
  rw [if_neg e7]
  by_cases e8 : cmdTypeOf j = str "key_release"
  · rw [if_pos e8]; exact hB8 e8
  rw [if_neg e8]
  by_cases e9 : cmdTypeOf j = str "joystick"
  · rw [if_pos e9]; exact hB9 e9
  rw [if_neg e9]
  by_cases e10 : cmdTypeOf j = str "paddle"
  · rw [if_pos e10]; exact hB10 e10
  rw [if_neg e10]
  by_cases e11 : cmdTypeOf j = str "consol"
  · rw [if_pos e11]; exact hB11 e11
  rw [if_neg e11]
  by_cases e12 : cmdTypeOf j = str "screenshot"
  · rw [if_pos e12]; exact hB12 e12
  rw [if_neg e12]
  by_cases e13 : cmdTypeOf j = str "screen_ascii"
  · rw [if_pos e13]; exact hB13 e13
  rw [if_neg e13]
  by_cases e14 : cmdTypeOf j = str "screen_raw"
  · rw [if_pos e14]; exact hB14 e14
  rw [if_neg e14]
  by_cases e15 : cmdTypeOf j = str "peek"
  · rw [if_pos e15]; exact hB15 e15
  rw [if_neg e15]
  by_cases e16 : cmdTypeOf j = str "poke"
  · rw [if_pos e16]; exact hB16 e16
  rw [if_neg e16]
  by_cases e17 : cmdTypeOf j = str "dump"
  · rw [if_pos e17]; exact hB17 e17
  rw [if_neg e17]
  by_cases e18 : cmdTypeOf j = str "cpu"
  · rw [if_pos e18]; exact hB18 e18
  rw [if_neg e18]
  by_cases e19 : cmdTypeOf j = str "cpu_set"
  · rw [if_pos e19]; exact hB19 e19
  rw [if_neg e19]
  by_cases e20 : cmdTypeOf j = str "antic"
  · rw [if_pos e20]; exact hB20 e20
  rw [if_neg e20]
  by_cases e21 : cmdTypeOf j = str "gtia"
  · rw [if_pos e21]; exact hB21 e21
  rw [if_neg e21]
  by_cases e22 : cmdTypeOf j = str "pokey"
  · rw [if_pos e22]; exact hB22 e22
  rw [if_neg e22]
  by_cases e23 : cmdTypeOf j = str "pia"
  · rw [if_pos e23]; exact hB23 e23
  rw [if_neg e23]
  by_cases e24 : cmdTypeOf j = str "debug_enable"
  · rw [if_pos e24]; exact hB24 e24
  rw [if_neg e24]
  by_cases e25 : cmdTypeOf j = str "debug_read"
  · rw [if_pos e25]; exact hB25 e25
  rw [if_neg e25]
  by_cases e26 : cmdTypeOf j = str "save_state"
  · rw [if_pos e26]; exact hB26 e26
  rw [if_neg e26]
  by_cases e27 : cmdTypeOf j = str "load_state"
  · rw [if_pos e27]; exact hB27 e27
  rw [if_neg e27]
  exact hUnk (by
    simp [isKnownCmd, e1, e2, e3, e4, e5, e6, e7, e8, e9, e10, e11, e12, e13, e14, e15,
      e16, e17, e18, e19, e20, e21, e22, e23, e24, e25, e26, e27])

/-- No dispatcher branch ever touches the client socket: answering a
request, recognized or not, keeps the connection open. -/
theorem process_command_client (j : List Char) (u : AIState) :
    (process_command j u).1.client = u.client := by
  refine process_command_elim j u (fun out => out.1.client = u.client)
    ?_ ?_ ?_ ?_ ?_ ?_ ?_ ?_ ?_ ?_ ?_ ?_ ?_ ?_ ?_ ?_ ?_ ?_ ?_ ?_ ?_ ?_ ?_ ?_ ?_ ?_ ?_ ?_
  all_goals intro _
  all_goals
    first
      | exact cmd_joystick_client _ _ _ _
      | exact cmd_paddle_client _ _ _
      | rfl

/-- A request whose command name matches no dispatcher branch falls
through to the final branch: state unchanged, one error response naming
the command. -/
theorem process_command_unknown (json : List Char) (s : AIState)
    (h : isKnownCmd (cmdTypeOf json) = false) :
    process_command json s = (s, send s (Resp.json (unknownResp (cmdTypeOf json)))) := by
  refine process_command_elim json s
    (fun out => out = (s, send s (Resp.json (unknownResp (cmdTypeOf json)))))
    ?_ ?_ ?_ ?_ ?_ ?_ ?_ ?_ ?_ ?_ ?_ ?_ ?_ ?_ ?_ ?_ ?_ ?_ ?_ ?_ ?_ ?_ ?_ ?_ ?_ ?_ ?_ ?_
  all_goals
    first
      | (intro hx; rw [hx] at h; exact absurd h (by decide))
      | (intro _; rfl)

/-- The status field of the unknown-command response reads error, whatever
the unrecognized name was. -/
theorem unknownResp_status (c : List Char) :
    json_get_string (unknownResp c) (str "status") 32 = some (str "error") := rfl

/-- Claim C4 as amended: an unknown command name is answered with exactly
one error-status response carrying a message naming it, and no command
ever closes the session; but a malformed or out-of-range declared length
(non-positive, or at least the 65536-byte buffer size) is silently
dropped — the layer emits no response at all for it, though the
connection does stay open. -/
theorem C4_protocol_error_behaviour
    (json : List Char) (s t : AIState) (hdr rest : List Char)
    (hn : isKnownCmd (cmdTypeOf json) = false)
    (hnl : '\n' ∉ hdr) (hlen : hdr.length ≤ 30)
    (hbad : atoi hdr ≤ 0 ∨ (AI_BUFFER_SIZE : Int) ≤ atoi hdr) :
    process_command json s = (s, send s (Resp.json (unknownResp (cmdTypeOf json)))) ∧
    json_get_string (unknownResp (cmdTypeOf json)) (str "status") 32 = some (str "error") ∧
    read_command (hdr ++ '\n' :: rest) false = ⟨none, rest, false⟩ ∧
    drainIter t (hdr ++ '\n' :: rest) false = (t, [], rest) ∧
    (∀ j u, (process_command j u).1.client = u.client) :=
  ⟨process_command_unknown json s hn, unknownResp_status _,
    read_command_bad_length hdr rest hnl hlen hbad,
    drainIter_bad_length t hdr rest hnl hlen hbad,
    process_command_client⟩

/-- Witness for C4: the unknown command bogus on the attached session, and
the declared length 0 followed by stray bytes. -/
theorem C4_protocol_error_behaviour_witness :
    process_command (str "\x7b\"cmd\":\"bogus\"\x7d") attached0 =
      (attached0, send attached0 (Resp.json (unknownResp (cmdTypeOf (str "\x7b\"cmd\":\"bogus\"\x7d"))))) ∧
    json_get_string (unknownResp (cmdTypeOf (str "\x7b\"cmd\":\"bogus\"\x7d"))) (str "status") 32 =
      some (str "error") ∧
    read_command (str "0" ++ '\n' :: str "xy") false = ⟨none, str "xy", false⟩ ∧
    drainIter attached0 (str "0" ++ '\n' :: str "xy") false = (attached0, [], str "xy") ∧
    (∀ j u, (process_command j u).1.client = u.client) :=
  C4_protocol_error_behaviour (str "\x7b\"cmd\":\"bogus\"\x7d") attached0 attached0
    (str "0") (str "xy") (by decide) (by decide) (by decide) (by decide)

/-- Counterexample to claim C4 as stated: a request declaring length 0 and
one declaring length 99999 (beyond the 65536-byte buffer) produce no
response whatsoever on the attached session — not the error-status answer
the claim requires — while the connection stays open. -/
theorem C4_no_response_on_bad_length :
    drainIter attached0 (str "0\n") false = (attached0, [], []) ∧
    drainIter attached0 (str "99999\nabc") false = (attached0, [], str "abc") ∧
    attached0.client = some 0 :=
  ⟨rfl, rfl, rfl⟩

/-! ## C10 -/

/-- The invariant of claim C10: every trigger-override entry is either -1
(no override) or 0 (pressed); the not-pressed value 1 never appears. -/
def TrigInv (s : AIState) : Prop :=
  ∀ i, s.AI_trig_override i = -1 ∨ s.AI_trig_override i = 0

/-- The joystick handler writes only 0 (fire) or -1 (clear) into the
trigger-override table, so it preserves the invariant. -/
theorem cmd_joystick_TrigInv (port : Int) (dir : List Char) (fire : Int) (s : AIState)
    (h : TrigInv s) : TrigInv (cmd_joystick port dir fire s).1 := by
  unfold cmd_joystick
  split_ifs with hp h1 h2 <;>
    first
      | exact h
      | (intro i
         dsimp only
         by_cases hi : i = (⟨port.toNat, by omega⟩ : Fin 4)
         · subst hi
           rw [Function.update_same]
           simp
         · rw [Function.update_noteq hi]
           exact h i)

/-- The paddle handler never touches the trigger-override table. -/
theorem cmd_paddle_trig (port value : Int) (s : AIState) :
    (cmd_paddle port value s).1.AI_trig_override = s.AI_trig_override := by
  unfold cmd_paddle
  split_ifs <;> rfl

/-- Dispatching any request preserves the trigger-override invariant. -/
theorem process_command_TrigInv (j : List Char) (s : AIState) (h : TrigInv s) :
    TrigInv (process_command j s).1 := by
  refine process_command_elim j s (fun out => TrigInv out.1)
    ?_ ?_ ?_ ?_ ?_ ?_ ?_ ?_ ?_ ?_ ?_ ?_ ?_ ?_ ?_ ?_ ?_ ?_ ?_ ?_ ?_ ?_ ?_ ?_ ?_ ?_ ?_ ?_
  all_goals intro _
  all_goals
    first
      | exact cmd_joystick_TrigInv _ _ _ _ h
      | (intro i; rw [cmd_paddle_trig]; exact h i)
      | exact h

/-- The frames countdown never touches the trigger-override table. -/
theorem aiFrameCountdown_trig (t : AIState) :
    (aiFrameCountdown t).1.AI_trig_override = t.AI_trig_override := by
  unfold aiFrameCountdown
  split_ifs <;> rfl

/-- The loop body of AI_ApplyInput only reads the override tables. -/
theorem applyPort_trig (i : Fin 4) (s : AIState) :
    (applyPort i s).AI_trig_override = s.AI_trig_override := by
  unfold applyPort
  split_ifs <;> rfl

/-- AI_ApplyInput only reads the override tables. -/
theorem AI_ApplyInput_trig (s : AIState) :
    (AI_ApplyInput s).AI_trig_override = s.AI_trig_override := by
  unfold AI_ApplyInput
  split_ifs <;> simp [applyPort_trig]

/-- Every atomic event of the layer preserves the trigger-override
invariant. -/
theorem AIStep_TrigInv {s t : AIState} (hst : AIStep s t) (h : TrigInv s) : TrigInv t := by
  cases hst with
  | dispatch json s hp hc => exact process_command_TrigInv json s h
  | tick s => intro i; rw [aiFrameCountdown_trig]; exact h i
  | connect fd s => exact h
  | disconnect s => exact h
  | debugWrite b s =>
      intro i
      unfold AI_DebugWrite
      split_ifs <;> exact h i
  | applyInput s => intro i; rw [AI_ApplyInput_trig]; exact h i
  | hw pia trig pot s => exact h

/-- Claim C10, confirmed. In every reachable state, from either startup
mode, every trigger-override entry is -1 (no override) or 0 (pressed);
the released value 1 is never installed, because the joystick command
with fire false clears the override instead. An agent can therefore force
a trigger pressed but never force it released against the polled input. -/
theorem C10_trig_override_never_released (b : Bool) (s : AIState) (h : ReachableAI b s) :
    ∀ i, s.AI_trig_override i = -1 ∨ s.AI_trig_override i = 0 := by
  unfold ReachableAI at h
  induction h with
  | refl => intro i; left; rfl
  | tail _ hstep ih => exact AIStep_TrigInv hstep ih

/-- Witness for C10 at the startup state itself. -/
theorem C10_trig_override_never_released_witness :
    (initState true).AI_trig_override 0 = -1 ∨ (initState true).AI_trig_override 0 = 0 :=
  C10_trig_override_never_released true (initState true) Relation.ReflTransGen.refl 0

/-! ## C3 -/

/-- The loop body of AI_ApplyInput never writes the directional override
table, only reads it. -/
theorem applyPort_joy (i : Fin 4) (s : AIState) :
    (applyPort i s).AI_joy_override = s.AI_joy_override := by
  unfold applyPort
  split_ifs <;> rfl

/-- AI_ApplyInput never consumes the overrides: the tables after
application are the tables before, which is why an override persists
frame after frame until a command changes it. -/
theorem AI_ApplyInput_joy (s : AIState) :
    (AI_ApplyInput s).AI_joy_override = s.AI_joy_override := by
  unfold AI_ApplyInput
  split_ifs <;> simp [applyPort_joy]

/-- The PIA byte touched by the loop body: updated exactly when the port
has an active directional override. -/
theorem applyPort_PIA (i : Fin 4) (s : AIState) :
    (applyPort i s).PIA_PORT_input =
      if 0 ≤ s.AI_joy_override i then
        Function.update s.PIA_PORT_input (piaIdx i)
          ((s.PIA_PORT_input (piaIdx i) &&& u32not (0x0F <<< piaShift i)) |||
            ((s.AI_joy_override i).toNat <<< piaShift i))
      else s.PIA_PORT_input := by
  unfold applyPort
  split_ifs <;> rfl

/-- A port with no directional override leaves the PIA bytes alone. -/
theorem applyPort_PIA_neg (i : Fin 4) (s : AIState) (h : s.AI_joy_override i < 0) :
    (applyPort i s).PIA_PORT_input = s.PIA_PORT_input := by
  rw [applyPort_PIA, if_neg (by omega)]

/-- A port with an active directional override rewrites its nibble of the
PIA byte. -/
theorem applyPort_PIA_pos (i : Fin 4) (s : AIState) (h : 0 ≤ s.AI_joy_override i) :
    (applyPort i s).PIA_PORT_input =
      Function.update s.PIA_PORT_input (piaIdx i)
        ((s.PIA_PORT_input (piaIdx i) &&& u32not (0x0F <<< piaShift i)) |||
          ((s.AI_joy_override i).toNat <<< piaShift i)) := by
  rw [applyPort_PIA, if_pos h]

/-- The GTIA trigger array after the loop body: updated at the port
exactly when it has an active trigger override. -/
theorem applyPort_GTIA (i : Fin 4) (s : AIState) :
    (applyPort i s).GTIA_TRIG =
      if 0 ≤ s.AI_trig_override i then
        Function.update s.GTIA_TRIG i (s.AI_trig_override i).toNat
      else s.GTIA_TRIG := by
  unfold applyPort
  split_ifs <;> rfl

/-- A guarded update at one index reads back unchanged at any other
index, whether or not the guard held. -/
theorem ite_update_ne {α β : Type} [DecidableEq α] (c : Prop) [Decidable c]
    (g : α → β) (q p : α) (v : β) (hpq : p ≠ q) :
    (if c then Function.update g q v else g) p = g p := by
  split_ifs with hc
  · exact Function.update_noteq hpq v g
  · rfl

/-- The trigger line the loop body leaves for a port: pressed when that
port is the one processed and its override is the pressed value, else
whatever it was. -/
theorem applyPort_GTIA_at (q : Fin 4) (t : AIState) (p : Fin 4)
    (h0 : t.AI_trig_override p = 0) :
    (applyPort q t).GTIA_TRIG p = if q = p then 0 else t.GTIA_TRIG p := by
  by_cases hqp : q = p
  · subst hqp
    rw [if_pos rfl, applyPort_GTIA, if_pos (le_of_eq h0.symm), Function.update_same, h0]
    rfl
  · rw [if_neg hqp, applyPort_GTIA]
    exact ite_update_ne _ _ _ _ _ fun hp => hqp hp.symm

/-- With the layer enabled and a pressed trigger override on a port,
AI_ApplyInput forces that port's GTIA trigger line to 0 (pressed). -/
theorem AI_ApplyInput_GTIA_pressed (s : AIState) (p : Fin 4)
    (he : s.AI_enabled = true) (h0 : s.AI_trig_override p = 0) :
    (AI_ApplyInput s).GTIA_TRIG p = 0 := by
  have hA : AI_ApplyInput s = applyPort 3 (applyPort 2 (applyPort 1 (applyPort 0 s))) := by
    unfold AI_ApplyInput
    rw [if_pos he]
  have t0 : (applyPort 0 s).AI_trig_override p = 0 := by
    rw [applyPort_trig]; exact h0
  have t1 : (applyPort 1 (applyPort 0 s)).AI_trig_override p = 0 := by
    rw [applyPort_trig]; exact t0
  have t2 : (applyPort 2 (applyPort 1 (applyPort 0 s))).AI_trig_override p = 0 := by
    rw [applyPort_trig]; exact t1
  rw [hA, applyPort_GTIA_at 3 _ p t2, applyPort_GTIA_at 2 _ p t1,
    applyPort_GTIA_at 1 _ p t0, applyPort_GTIA_at 0 _ p h0]
  fin_cases p <;> rfl

/-- The other port sharing a PIA byte: 0 with 1, 2 with 3. -/
def partner (p : Fin 4) : Fin 4 :=
  match p with
  | ⟨0, _⟩ => 1
  | ⟨1, _⟩ => 0
  | ⟨2, _⟩ => 3
  | ⟨3, _⟩ => 2

/-- With the layer enabled and port p the only one carrying a directional
override, AI_ApplyInput rewrites exactly the p nibble of the right PIA
byte. -/
theorem AI_ApplyInput_PIA_single (s : AIState) (p : Fin 4)
    (he : s.AI_enabled = true)
    (hpos : 0 ≤ s.AI_joy_override p)
    (hothers : ∀ q, q ≠ p → s.AI_joy_override q < 0) :
    (AI_ApplyInput s).PIA_PORT_input =
      Function.update s.PIA_PORT_input (piaIdx p)
        ((s.PIA_PORT_input (piaIdx p) &&& u32not (0x0F <<< piaShift p)) |||
          ((s.AI_joy_override p).toNat <<< piaShift p)) := by
  have hA : AI_ApplyInput s = applyPort 3 (applyPort 2 (applyPort 1 (applyPort 0 s))) := by
    unfold AI_ApplyInput
    rw [if_pos he]
  fin_cases p
  · have h1 : (applyPort 0 s).AI_joy_override 1 < 0 := by
      rw [applyPort_joy]; exact hothers 1 (by decide)
    have h2 : (applyPort 1 (applyPort 0 s)).AI_joy_override 2 < 0 := by
      rw [applyPort_joy, applyPort_joy]; exact hothers 2 (by decide)
    have h3 : (applyPort 2 (applyPort 1 (applyPort 0 s))).AI_joy_override 3 < 0 := by
      rw [applyPort_joy, applyPort_joy, applyPort_joy]; exact hothers 3 (by decide)
    rw [hA, applyPort_PIA_neg 3 _ h3, applyPort_PIA_neg 2 _ h2, applyPort_PIA_neg 1 _ h1,
      applyPort_PIA_pos 0 s hpos]
    rfl
  · have h0 : s.AI_joy_override 0 < 0 := hothers 0 (by decide)
    have hp1 : 0 ≤ (applyPort 0 s).AI_joy_override 1 := by
      rw [applyPort_joy]; exact hpos
    have h2 : (applyPort 1 (applyPort 0 s)).AI_joy_override 2 < 0 := by
      rw [applyPort_joy, applyPort_joy]; exact hothers 2 (by decide)
    have h3 : (applyPort 2 (applyPort 1 (applyPort 0 s))).AI_joy_override 3 < 0 := by
      rw [applyPort_joy, applyPort_joy, applyPort_joy]; exact hothers 3 (by decide)
    rw [hA, applyPort_PIA_neg 3 _ h3, applyPort_PIA_neg 2 _ h2,
      applyPort_PIA_pos 1 _ hp1, applyPort_PIA_neg 0 s h0, applyPort_joy]
    rfl
  · have h0 : s.AI_joy_override 0 < 0 := hothers 0 (by decide)
    have h1 : (applyPort 0 s).AI_joy_override 1 < 0 := by
      rw [applyPort_joy]; exact hothers 1 (by decide)
    have hp2 : 0 ≤ (applyPort 1 (applyPort 0 s)).AI_joy_override 2 := by
      rw [applyPort_joy, applyPort_joy]; exact hpos
    have h3 : (applyPort 2 (applyPort 1 (applyPort 0 s))).AI_joy_override 3 < 0 := by
      rw [applyPort_joy, applyPort_joy, applyPort_joy]; exact hothers 3 (by decide)
    rw [hA, applyPort_PIA_neg 3 _ h3, applyPort_PIA_pos 2 _ hp2,
      applyPort_PIA_neg 1 _ h1, applyPort_PIA_neg 0 s h0, applyPort_joy, applyPort_joy]
    rfl
  · have h0 : s.AI_joy_override 0 < 0 := hothers 0 (by decide)
    have h1 : (applyPort 0 s).AI_joy_override 1 < 0 := by
      rw [applyPort_joy]; exact hothers 1 (by decide)
    have h2 : (applyPort 1 (applyPort 0 s)).AI_joy_override 2 < 0 := by
      rw [applyPort_joy, applyPort_joy]; exact hothers 2 (by decide)
    have hp3 : 0 ≤ (applyPort 2 (applyPort 1 (applyPort 0 s))).AI_joy_override 3 := by
      rw [applyPort_joy, applyPort_joy, applyPort_joy]; exact hpos
    rw [hA, applyPort_PIA_pos 3 _ hp3, applyPort_PIA_neg 2 _ h2,
      applyPort_PIA_neg 1 _ h1, applyPort_PIA_neg 0 s h0, applyPort_joy, applyPort_joy,
      applyPort_joy]
    rfl

set_option maxRecDepth 10000 in
set_option maxHeartbeats 1000000 in
/-- Replacing the low nibble of a byte: the stored nibble is the override
value whatever the old byte was. -/
theorem nibble_low_replace : ∀ v : Fin 256, ∀ e : Fin 16,
    (((v : Nat) &&& u32not 15) ||| (e : Nat)) &&& 15 = (e : Nat) := by decide

set_option maxRecDepth 10000 in
set_option maxHeartbeats 1000000 in
/-- Replacing the low nibble of a byte leaves the high nibble alone. -/
theorem nibble_low_keeps_high : ∀ v : Fin 256, ∀ e : Fin 16,
    ((((v : Nat) &&& u32not 15) ||| (e : Nat)) >>> 4) &&& 15 = ((v : Nat) >>> 4) &&& 15 := by
  decide

set_option maxRecDepth 10000 in
set_option maxHeartbeats 1000000 in
/-- Replacing the high nibble of a byte: the stored nibble is the
override value whatever the old byte was. -/
theorem nibble_high_replace : ∀ v : Fin 256, ∀ e : Fin 16,
    ((((v : Nat) &&& u32not (15 <<< 4)) ||| ((e : Nat) <<< 4)) >>> 4) &&& 15 = (e : Nat) := by
  decide

set_option maxRecDepth 10000 in
set_option maxHeartbeats 1000000 in
/-- Replacing the high nibble of a byte leaves the low nibble alone. -/
theorem nibble_high_keeps_low : ∀ v : Fin 256, ∀ e : Fin 16,
    (((v : Nat) &&& u32not (15 <<< 4)) ||| ((e : Nat) <<< 4)) &&& 15 = (v : Nat) &&& 15 := by
  decide

/-- Nat form of nibble_low_replace. -/
theorem nibble_low_replace_nat (v e : Nat) (hv : v < 256) (he : e < 16) :
    ((v &&& u32not 15) ||| e) &&& 15 = e := nibble_low_replace ⟨v, hv⟩ ⟨e, he⟩

/-- Nat form of nibble_low_keeps_high. -/
theorem nibble_low_keeps_high_nat (v e : Nat) (hv : v < 256) (he : e < 16) :
    (((v &&& u32not 15) ||| e) >>> 4) &&& 15 = (v >>> 4) &&& 15 :=
  nibble_low_keeps_high ⟨v, hv⟩ ⟨e, he⟩

/-- Nat form of nibble_high_replace. -/
theorem nibble_high_replace_nat (v e : Nat) (hv : v < 256) (he : e < 16) :
    (((v &&& u32not (15 <<< 4)) ||| (e <<< 4)) >>> 4) &&& 15 = e :=
  nibble_high_replace ⟨v, hv⟩ ⟨e, he⟩

/-- Nat form of nibble_high_keeps_low. -/
theorem nibble_high_keeps_low_nat (v e : Nat) (hv : v < 256) (he : e < 16) :
    ((v &&& u32not (15 <<< 4)) ||| (e <<< 4)) &&& 15 = v &&& 15 :=
  nibble_high_keeps_low ⟨v, hv⟩ ⟨e, he⟩

/-- Claim C3 as amended. With the layer enabled and port p carrying the
only directional override d (0 ≤ d < 16) together with a pressed trigger
override, one application of AI_ApplyInput: (1) stores exactly d in the
four direction bits of port p inside its PIA byte, independently of the
polled value — a full replacement, not a merge; (2) leaves the other
port's nibble of the same PIA byte exactly as polled; (3) forces the
port's GTIA trigger line to 0 (pressed); (4) consumes neither override,
so the same replacement recurs every subsequent frame; (5) a joystick
command with direction center and fire false resets both override entries
to -1 (no override); and (6) a session disconnect does NOT reset the
override tables — only a command does, which is where the original claim
fails (see the counterexample). -/
theorem C3_override_fully_replaces (s : AIState) (p : Fin 4) (d : Int)
    (he : s.AI_enabled = true)
    (hov : s.AI_joy_override p = d) (hd0 : 0 ≤ d) (hd : d < 16)
    (hothers : ∀ q, q ≠ p → s.AI_joy_override q < 0)
    (htrig : s.AI_trig_override p = 0)
    (hpia : s.PIA_PORT_input (piaIdx p) < 256) :
    (((AI_ApplyInput s).PIA_PORT_input (piaIdx p)) >>> piaShift p) &&& 15 = d.toNat ∧
    (((AI_ApplyInput s).PIA_PORT_input (piaIdx p)) >>> piaShift (partner p)) &&& 15 =
      ((s.PIA_PORT_input (piaIdx p)) >>> piaShift (partner p)) &&& 15 ∧
    (AI_ApplyInput s).GTIA_TRIG p = 0 ∧
    (AI_ApplyInput s).AI_joy_override = s.AI_joy_override ∧
    (AI_ApplyInput s).AI_trig_override = s.AI_trig_override ∧
    (∀ (t : AIState) (port : Int) (h4 : 0 ≤ port ∧ port < 4),
      (cmd_joystick port (str "center") 0 t).1.AI_joy_override ⟨port.toNat, by omega⟩ = -1 ∧
      (cmd_joystick port (str "center") 0 t).1.AI_trig_override ⟨port.toNat, by omega⟩ = -1) ∧
    (∀ t : AIState, (dropClient t).AI_joy_override = t.AI_joy_override ∧
      (dropClient t).AI_trig_override = t.AI_trig_override) := by
  have hA_PIA := AI_ApplyInput_PIA_single s p he (by omega) hothers
  rw [hov] at hA_PIA
  have hdn : d.toNat < 16 := by omega
  have hsh : (piaShift p = 0 ∧ piaShift (partner p) = 4) ∨
      (piaShift p = 4 ∧ piaShift (partner p) = 0) := by
    fin_cases p <;> decide
  refine ⟨?_, ?_, AI_ApplyInput_GTIA_pressed s p he htrig, AI_ApplyInput_joy s,
    AI_ApplyInput_trig s, ?_, fun t => ⟨rfl, rfl⟩⟩
  · rw [hA_PIA, Function.update_same]
    rcases hsh with ⟨h0, _⟩ | ⟨h0, _⟩
    · rw [h0]
      simpa only [Nat.shiftLeft_zero, Nat.shiftRight_zero] using
        nibble_low_replace_nat _ _ hpia hdn
    · rw [h0]
      exact nibble_high_replace_nat _ _ hpia hdn
  · rw [hA_PIA, Function.update_same]
    rcases hsh with ⟨h0, h4⟩ | ⟨h0, h4⟩
    · rw [h0, h4]
      simpa only [Nat.shiftLeft_zero, Nat.shiftRight_zero] using
        nibble_low_keeps_high_nat _ _ hpia hdn
    · rw [h0, h4]
      simpa only [Nat.shiftLeft_zero, Nat.shiftRight_zero] using
        nibble_high_keeps_low_nat _ _ hpia hdn
  · intro t port h4
    unfold cmd_joystick
    rw [dif_pos h4]
    refine ⟨?_, ?_⟩ <;>
      · dsimp only
        exact (Function.update_same _ _ _).trans (by decide)

/-- The joystick request of the C3 scenario: port 0, direction up, fire. -/
def joyJson : List Char :=
  str "\x7b\"cmd\":\"joystick\",\"port\":0,\"direction\":\"up\",\"fire\":true\x7d"

/-- State after the joystick override is installed on the attached
session: port 0 overridden forward (14) with trigger pressed. -/
def c3s1 : AIState := (process_command joyJson attached0).1

/-- The same state after the session disconnects. -/
def c3s2 : AIState := dropClient c3s1

/-- Witness for C3 on the concrete scenario state: port 0 holds the
forward override and one application forces its nibble to 14 and its
trigger to pressed. -/
theorem C3_override_fully_replaces_witness :
    c3s1.AI_joy_override 0 = 14 ∧
    (((AI_ApplyInput c3s1).PIA_PORT_input (piaIdx 0)) >>> piaShift 0) &&& 15 = (14 : Int).toNat ∧
    (AI_ApplyInput c3s1).GTIA_TRIG 0 = 0 :=
  ⟨by decide,
    (C3_override_fully_replaces c3s1 0 14 (by decide) (by decide) (by decide) (by decide)
      (by decide) (by decide) (by decide)).1,
    (C3_override_fully_replaces c3s1 0 14 (by decide) (by decide) (by decide) (by decide)
      (by decide) (by decide) (by decide)).2.2.1⟩

/-- Counterexample to claim C3 as stated: after the joystick override is
installed and the session then disconnects (a reachable trace: connect,
dispatch, teardown), the override table still holds 14 for port 0 — the
disconnect did not reset it to no-override — and the next frame's
application still forces the port 0 direction nibble to 14. -/
theorem C3_disconnect_keeps_override :
    ReachableAI true c3s2 ∧
    c3s1.AI_joy_override 0 = 14 ∧
    c3s1.AI_trig_override 0 = 0 ∧
    c3s2.client = none ∧
    c3s2.AI_joy_override 0 = 14 ∧
    c3s2.AI_trig_override 0 = 0 ∧
    c3s2.AI_joy_override 0 ≠ -1 ∧
    ((AI_ApplyInput c3s2).PIA_PORT_input 0) &&& 15 = 14 := by
  refine ⟨?_, by decide, by decide, by decide, by decide, by decide, by decide, by decide⟩
  have h1 : AIStep (initState true) attached0 := AIStep.connect 0 _
  have h2 : AIStep attached0 c3s1 := AIStep.dispatch joyJson _ rfl rfl
  have h3 : AIStep c3s1 c3s2 := AIStep.disconnect _
  exact Relation.ReflTransGen.tail
    (Relation.ReflTransGen.tail (Relation.ReflTransGen.single h1) h2) h3

/-! ## C5 -/

/-- The data array text with no buffer-size cutoff: comma before every
element except the one at index 0. -/
def debugDataIdeal : List Nat → Nat → List Char
  | [], _ => []
  | b :: bs, i => ((if i = 0 then [] else [',']) ++ natDec b) ++ debugDataIdeal bs (i + 1)

/-- The debug_read response as it reads when no cutoff fires: the head,
the data array of the buffer bytes in order, the separator, their
printable rendering, and the tail. -/
def debug_read_ideal (buf : List Nat) : List Char :=
  debugHead ++ debugDataIdeal buf 0 ++ debugMid ++ buf.map asciiRender ++ debugTail

set_option maxRecDepth 10000 in
/-- The decimal text of a byte value has at most three characters. -/
theorem natDec_length_byte : ∀ b : Fin 256, (natDec (b : Nat)).length ≤ 3 := by decide

/-- Nat form of natDec_length_byte. -/
theorem natDec_length_byte_nat (b : Nat) (h : b < 256) : (natDec b).length ≤ 3 :=
  natDec_length_byte ⟨b, h⟩

/-- One data element appends at most four characters. -/
theorem dataPiece_length (b i : Nat) (h : b < 256) :
    ((if i = 0 then ([] : List Char) else [',']) ++ natDec b).length ≤ 4 := by
  have := natDec_length_byte_nat b h
  by_cases hi : i = 0 <;> simp [hi] <;> omega

/-- While the write position plus four characters per remaining element
stays within the cutoff, the data loop runs to completion and produces
exactly the ideal text. -/
theorem dataLoop_eq : ∀ (bs : List Nat) (i pos : Nat),
    (∀ b ∈ bs, b < 256) → pos + 4 * bs.length ≤ AI_MAX_RESPONSE - 100 →
    dataLoop bs i pos = (pos + (debugDataIdeal bs i).length, debugDataIdeal bs i) := by
  intro bs
  induction bs with
  | nil =>
      intro i pos _ _
      simp [dataLoop, debugDataIdeal]
  | cons b tl ih =>
      intro i pos hb hbound
      have hpiece := dataPiece_length b i (hb b (List.mem_cons_self b tl))
      have hlt : pos < AI_MAX_RESPONSE - 100 := by
        simp only [List.length_cons] at hbound
        omega
      have hb2 : ∀ x ∈ tl, x < 256 := fun x hx => hb x (List.mem_cons_of_mem _ hx)
      have hbound2 : (pos + ((if i = 0 then ([] : List Char) else [',']) ++ natDec b).length) +
          4 * tl.length ≤ AI_MAX_RESPONSE - 100 := by
        simp only [List.length_cons] at hbound
        omega
      simp only [dataLoop, if_pos hlt]
      rw [ih (i + 1) (pos + ((if i = 0 then ([] : List Char) else [',']) ++ natDec b).length)
        hb2 hbound2]
      simp only [debugDataIdeal, List.length_append]
      rw [Prod.mk.injEq]
      exact ⟨by omega, rfl⟩

/-- The ideal data text is at most four characters per element. -/
theorem debugDataIdeal_length : ∀ (bs : List Nat) (i : Nat), (∀ b ∈ bs, b < 256) →
    (debugDataIdeal bs i).length ≤ 4 * bs.length := by
  intro bs
  induction bs with
  | nil =>
      intro i _
      simp [debugDataIdeal]
  | cons b tl ih =>
      intro i hb
      have h1 := natDec_length_byte_nat b (hb b (List.mem_cons_self b tl))
      have h2 := ih (i + 1) (fun x hx => hb x (List.mem_cons_of_mem _ hx))
      have h3 : (if i = 0 then ([] : List Char) else [',']).length ≤ 1 := by
        by_cases hi : i = 0 <;> simp [hi]
      simp only [debugDataIdeal, List.length_append, List.length_cons]
      omega

/-- While the write position plus one character per remaining element
stays within its cutoff, the ascii loop runs to completion and renders
every byte. -/
theorem asciiLoop_eq : ∀ (bs : List Nat) (pos : Nat),
    pos + bs.length ≤ AI_MAX_RESPONSE - 10 →
    asciiLoop bs pos = (pos + bs.length, bs.map asciiRender) := by
  intro bs
  induction bs with
  | nil =>
      intro pos _
      simp [asciiLoop]
  | cons b tl ih =>
      intro pos hb
      have hlt : pos < AI_MAX_RESPONSE - 10 := by
        simp only [List.length_cons] at hb
        omega
      have hb2 : (pos + 1) + tl.length ≤ AI_MAX_RESPONSE - 10 := by
        simp only [List.length_cons] at hb
        omega
      simp only [asciiLoop, if_pos hlt, ih (pos + 1) hb2, List.length_cons, List.map_cons]
      rw [Prod.mk.injEq]
      exact ⟨by omega, rfl⟩

/-- For a buffer within capacity, neither cutoff of the debug_read
response builder can fire: the response is exactly the ideal text listing
every captured byte in order. -/
theorem debug_read_response_eq (buf : List Nat)
    (hlen : buf.length ≤ 4096) (hb : ∀ b ∈ buf, b < 256) :
    debug_read_response buf = debug_read_ideal buf := by
  have hM : AI_MAX_RESPONSE = 1048576 := rfl
  have hhead : debugHead.length = 23 := by decide
  have hmid : debugMid.length = 11 := by decide
  have hilen := debugDataIdeal_length buf 0 hb
  have hd := dataLoop_eq buf 0 debugHead.length hb (by omega)
  have ha := asciiLoop_eq buf
    ((debugHead.length + (debugDataIdeal buf 0).length) + debugMid.length) (by omega)
  unfold debug_read_response debug_read_ideal
  rw [hd]
  dsimp only
  rw [ha]

/-- The sequence of AI_DebugWrite calls the memory-subsystem hook makes
for a list of guest writes, oldest first. -/
def writeAll (bs : List Nat) (s : AIState) : AIState :=
  bs.foldl (fun t b => AI_DebugWrite b t) s

/-- Writes within the remaining capacity all land in the buffer, in write
order, after whatever was already stored. -/
theorem writeAll_buffer : ∀ (bs : List Nat) (s : AIState),
    s.ai_debug_buffer.length + bs.length ≤ AI_DEBUG_BUFFER_SIZE →
    (writeAll bs s).ai_debug_buffer = s.ai_debug_buffer ++ bs := by
  intro bs
  induction bs with
  | nil =>
      intro s _
      simp [writeAll]
  | cons b tl ih =>
      intro s h
      have hlt : s.ai_debug_buffer.length < AI_DEBUG_BUFFER_SIZE := by
        simp only [List.length_cons] at h
        omega
      have hw : AI_DebugWrite b s = { s with ai_debug_buffer := s.ai_debug_buffer ++ [b] } := by
        unfold AI_DebugWrite
        rw [if_pos hlt]
      rw [show writeAll (b :: tl) s = writeAll tl (AI_DebugWrite b s) from rfl, hw]
      rw [ih { s with ai_debug_buffer := s.ai_debug_buffer ++ [b] }
        (by simp only [List.length_append, List.length_singleton, List.length_cons,
          List.length_nil] at h ⊢; omega)]
      simp

/-- Debug writes never touch the client socket. -/
theorem writeAll_client : ∀ (bs : List Nat) (s : AIState),
    (writeAll bs s).client = s.client := by
  intro bs
  induction bs with
  | nil => intro s; rfl
  | cons b tl ih =>
      intro s
      rw [show writeAll (b :: tl) s = writeAll tl (AI_DebugWrite b s) from rfl, ih]
      unfold AI_DebugWrite
      split_ifs <;> rfl

/-- Claim C5, confirmed. Starting from an empty buffer on an attached
session, any N ≤ 4096 byte writes land in the buffer in write order;
debug_read then sends exactly one response whose data array lists exactly
those N bytes in that order (the ideal text: the 1 MB response buffer
cutoffs cannot fire within capacity) and resets the buffer, so an
immediately following debug_read sends the empty-data response; and a
write arriving at full capacity is dropped with the state unchanged. -/
theorem C5_debug_capture (bs : List Nat) (s : AIState)
    (hb : s.ai_debug_buffer = []) (hc : s.client.isSome = true)
    (hlen : bs.length ≤ 4096) (hbyte : ∀ b ∈ bs, b < 256) :
    (writeAll bs s).ai_debug_buffer = bs ∧
    (cmd_debug_read (writeAll bs s)).2 = [Resp.json (debug_read_ideal bs)] ∧
    (cmd_debug_read (writeAll bs s)).1.ai_debug_buffer = [] ∧
    (cmd_debug_read (cmd_debug_read (writeAll bs s)).1).2 =
      [Resp.json (debug_read_ideal [])] ∧
    debug_read_ideal [] = str "\x7b\"status\":\"ok\",\"data\":[],\"ascii\":\"\"\x7d" ∧
    (∀ (t : AIState) (b : Nat), AI_DEBUG_BUFFER_SIZE ≤ t.ai_debug_buffer.length →
      AI_DebugWrite b t = t) := by
  have hbuf : (writeAll bs s).ai_debug_buffer = bs := by
    have h2 := writeAll_buffer bs s (by rw [hb]; simpa using hlen)
    rw [hb] at h2
    simpa using h2
  refine ⟨hbuf, ?_, rfl, ?_, by decide, ?_⟩
  · unfold cmd_debug_read send
    dsimp only
    rw [hbuf, debug_read_response_eq bs hlen hbyte, writeAll_client, hc]
    rfl
  · unfold cmd_debug_read send
    dsimp only
    rw [show debug_read_response [] = debug_read_ideal [] from by decide, writeAll_client, hc]
    rfl
  · intro t b hfull
    unfold AI_DebugWrite
    rw [if_neg (by omega)]

/-- Witness for C5: the two bytes 72 and 105 on the attached session. -/
theorem C5_debug_capture_witness :
    (writeAll [72, 105] attached0).ai_debug_buffer = [72, 105] ∧
    (cmd_debug_read (writeAll [72, 105] attached0)).2 =
      [Resp.json (debug_read_ideal [72, 105])] ∧
    (cmd_debug_read (cmd_debug_read (writeAll [72, 105] attached0)).1).2 =
      [Resp.json (debug_read_ideal [])] :=
  ⟨(C5_debug_capture [72, 105] attached0 (by decide) (by decide) (by decide) (by decide)).1,
    (C5_debug_capture [72, 105] attached0 (by decide) (by decide) (by decide) (by decide)).2.1,
    (C5_debug_capture [72, 105] attached0 (by decide) (by decide) (by decide) (by decide)).2.2.2.1⟩
